import Mathlib

/-!
Shallow embedding of `src/pushoverNotifications.js`, a polling script that
fetches the latest video of each configured channel, compares its title with
a per-channel persisted title file, and on a difference writes the new title
and posts a Pushover notification.

Modelling choices:
* The file system is a map from filename to optional contents
  (`none` = the file does not exist).
* Browser scraping (`puppeteer`) is replaced by a `FetchOutcome` oracle per
  channel: navigation error, unexpected error, or a scraped
  `Option Video` result.
* Side effects (file writes, HTTP posts, log lines, process spawn/exit) are
  collected in an explicit effect trace.
* Notification delivery (`axios.post`) is a parameter
  `deliver : PushoverPayload → Except String Unit`.
* A `restartScript` call terminates the run: `RunResult.restart` carries the
  effect trace up to and including the spawn/exit pair.
-/

namespace PushoverNotif

/-- An observed latest video: the trimmed anchor text and the link href. -/
structure Video where
  title : String
  link : String
deriving Repr, DecidableEq

/-- The file system: filename to contents; `none` means the file is absent. -/
def FS : Type := String → Option String

/-- The JSON body built in `sendPushoverNotification` (line 105-116). -/
structure PushoverPayload where
  token : Option String
  user : Option String
  message : String
  title : String
  url : String
  url_title : String
  priority : Int
  sound : String
  retry : Nat
  expire : Nat
deriving Repr, DecidableEq

/-- Observable side effects of the script. -/
inductive Effect where
  | log (msg : String)
  | writeFile (filename : String) (contents : String)
  | post (endpoint : String) (payload : PushoverPayload)
  | spawnSelf
  | exitProcess (code : Nat)
deriving Repr, DecidableEq

/-- What happens when `getLatestVideo` runs its browser session on a channel:
the `page.goto` call throws (`navError`), some other statement in the `try`
block throws (`unexpectedError`), or the page is scraped and the selector
query yields `none` or a video. -/
inductive FetchOutcome where
  | navError (msg : String)
  | unexpectedError (msg : String)
  | scraped (result : Option Video)
deriving Repr, DecidableEq

/-- Result of a run fragment: either the process restarted itself
(`restartScript`: spawn a copy, exit), carrying the trace emitted up to the
exit, or the fragment completed with a value. -/
inductive RunResult (α : Type) where
  | restart (effs : List Effect)
  | done (a : α)

/-- The fixed notification-delivery endpoint (line 118). -/
def pushoverEndpoint : String := "https://api.pushover.net/1/messages.json"

/-- Whitespace for the JS `trim()` method (ASCII part). -/
def isJsWhitespace (c : Char) : Bool :=
  c = ' ' || c = '\t' || c = '\n' || c = '\r' || c = '\x0b' || c = '\x0c'

/-- JS `s.trim()`: strip leading and trailing whitespace. -/
def jsTrim (s : String) : String :=
  String.mk
    (((s.data.dropWhile isJsWhitespace).reverse.dropWhile isJsWhitespace).reverse)

/-- Splitting a character list at a separator, JS `split` semantics:
the empty string yields `[""]` and separators at the ends yield empty
fields. -/
def splitCharsOn (sep : Char) : List Char → List Char → List (List Char)
  | [], acc => [acc.reverse]
  | c :: rest, acc =>
      if c = sep then acc.reverse :: splitCharsOn sep rest []
      else splitCharsOn sep rest (c :: acc)

/-- JS `s.split(sep)` for a one-character separator. -/
def jsSplit (sep : Char) (s : String) : List String :=
  (splitCharsOn sep s.data []).map String.mk

/-- The character class of the regex `[^a-z0-9]` with the `i` flag:
ASCII letters of either case and ASCII digits. -/
def isAlnumAscii (c : Char) : Bool :=
  ('a' ≤ c && c ≤ 'z') || ('A' ≤ c && c ≤ 'Z') || ('0' ≤ c && c ≤ '9')

/-- `channelUrl.replace(/[^a-z0-9]/gi, chr(95))`: every character outside the
class becomes an underscore. -/
def jsReplaceNonAlnum (s : String) : String :=
  String.mk (s.data.map fun c => if isAlnumAscii c then c else '_')

/-- `.toLowerCase()`; after the replacement only ASCII alphanumerics and
underscores remain, so ASCII lowercasing is exact. -/
def jsToLowerCase (s : String) : String :=
  String.mk (s.data.map Char.toLower)

/-- `getLatestTitleFileName` (lines 83-87). -/
def getLatestTitleFileName (channelUrl : String) : String :=
  jsToLowerCase (jsReplaceNonAlnum channelUrl) ++ "_latest_title.txt"

/-- `readLastTitle` (lines 89-95): `null` if the file does not exist, else
the trimmed contents, with the empty string collapsed to `null` by
`title || null`. -/
def readLastTitle (fs : FS) (filename : String) : Option String :=
  match fs filename with
  | none => none
  | some contents =>
      let title := jsTrim contents
      if title = "" then none else some title

/-- `writeLastTitle` (lines 97-99): overwrite the file with the title. -/
def writeLastTitle (title : String) (filename : String) (fs : FS) : FS :=
  fun f => if f = filename then some title else fs f

/-- `channelUrl.split(chr(64))[1]?.split(chr(47))[0] || default`
(line 103). -/
def channelNameOf (channelUrl : String) : String :=
  match (jsSplit '@' channelUrl).drop 1 with
  | [] => "YouTube Channel"
  | part :: _ =>
      match jsSplit '/' part with
      | [] => "YouTube Channel"
      | first :: _ => if first = "" then "YouTube Channel" else first

/-- The payload literal of lines 105-116. -/
def mkPushoverPayload (apiToken userKey : Option String) (video : Video)
    (channelUrl : String) : PushoverPayload :=
  { token := apiToken
    user := userKey
    message := "New video on " ++ channelNameOf channelUrl ++ ": " ++ video.title
    title := "New YouTube Video"
    url := video.link
    url_title := "Watch Video"
    priority := 2
    sound := "siren"
    retry := 30
    expire := 3600 }

/-- `sendPushoverNotification` (lines 101-123): build the payload, post it
once, log success or log the delivery error; the `try`/`catch` swallows the
error, so the result is always `Except.ok`. -/
def sendPushoverNotification (deliver : PushoverPayload → Except String Unit)
    (apiToken userKey : Option String) (video : Video) (channelUrl : String) :
    Except String (List Effect) :=
  let payload := mkPushoverPayload apiToken userKey video channelUrl
  match deliver payload with
  | Except.ok _ =>
      Except.ok [Effect.post pushoverEndpoint payload,
                 Effect.log "Pushover notification sent successfully!"]
  | Except.error e =>
      Except.ok [Effect.post pushoverEndpoint payload,
                 Effect.log ("Failed to send Pushover notification: " ++ e)]

/-- The effect trace `sendPushoverNotification` emits (it never throws). -/
def sendEffects (deliver : PushoverPayload → Except String Unit)
    (apiToken userKey : Option String) (video : Video) (channelUrl : String) :
    List Effect :=
  match sendPushoverNotification deliver apiToken userKey video channelUrl with
  | Except.ok effs => effs
  | Except.error _ => []

/-- `restartScript` (lines 22-28): log, spawn a fresh copy of the process,
exit the current process with code 1. -/
def restartScript : List Effect :=
  [Effect.log "Restarting script due to error...",
   Effect.spawnSelf,
   Effect.exitProcess 1]

/-- The error log line emitted before `restartScript` in `getLatestVideo`
(lines 42 and 78). -/
def fetchErrorLog (channelUrl : String) : FetchOutcome → List Effect
  | FetchOutcome.navError m =>
      [Effect.log ("Error navigating to " ++ channelUrl ++ ": " ++ m)]
  | FetchOutcome.unexpectedError m =>
      [Effect.log ("Unexpected error in getLatestVideo: " ++ m)]
  | FetchOutcome.scraped _ => []

/-- `getLatestVideo` (lines 30-81) with the browser session abstracted into
its `FetchOutcome`: navigation errors and unexpected errors log and call
`restartScript`; a missing selector yields `null`; otherwise the video. -/
def getLatestVideo (channelUrl : String) (outcome : FetchOutcome) :
    RunResult (Option Video) :=
  match outcome with
  | FetchOutcome.navError m =>
      RunResult.restart
        (fetchErrorLog channelUrl (FetchOutcome.navError m) ++ restartScript)
  | FetchOutcome.unexpectedError m =>
      RunResult.restart
        (fetchErrorLog channelUrl (FetchOutcome.unexpectedError m) ++ restartScript)
  | FetchOutcome.scraped r => RunResult.done r

/-- `checkForNewVideo` (lines 125-146): fetch; on `null` do nothing; read
the stored title; if it equals the fetched title do nothing; otherwise
write the new title and then send the notification. The effect trace lists
the file write before the post. -/
def checkForNewVideo (deliver : PushoverPayload → Except String Unit)
    (apiToken userKey : Option String) (outcome : FetchOutcome)
    (fs : FS) (channelUrl : String) : RunResult (FS × List Effect) :=
  match getLatestVideo channelUrl outcome with
  | RunResult.restart effs => RunResult.restart effs
  | RunResult.done none => RunResult.done (fs, [])
  | RunResult.done (some latestVideo) =>
      let latestTitleFile := getLatestTitleFileName channelUrl
      let storedTitle := readLastTitle fs latestTitleFile
      if storedTitle = some latestVideo.title then
        RunResult.done (fs, [])
      else
        RunResult.done
          (writeLastTitle latestVideo.title latestTitleFile fs,
           Effect.writeFile latestTitleFile latestVideo.title ::
             sendEffects deliver apiToken userKey latestVideo channelUrl)

/-- `checkForAllNewVideos` (lines 148-153): sequentially check each channel,
threading the file system; a restart inside one check aborts the cycle. -/
def checkForAllNewVideos (deliver : PushoverPayload → Except String Unit)
    (apiToken userKey : Option String) (outcomes : String → FetchOutcome) :
    List String → FS → RunResult (FS × List Effect)
  | [], fs => RunResult.done (fs, [])
  | url :: rest, fs =>
      match checkForNewVideo deliver apiToken userKey (outcomes url) fs url with
      | RunResult.restart effs => RunResult.restart effs
      | RunResult.done (fs2, effs) =>
          match checkForAllNewVideos deliver apiToken userKey outcomes rest fs2 with
          | RunResult.restart effs2 => RunResult.restart (effs ++ effs2)
          | RunResult.done (fs3, effs2) => RunResult.done (fs3, effs ++ effs2)

/-- `YOUTUBE_CHANNEL_URLS` (lines 11-13): `env ? env.split(",").map(trim) : []`;
an unset variable and the falsy empty string both give the empty list. -/
def channelUrlsFromEnv (env : Option String) : List String :=
  match env with
  | none => []
  | some s => if s = "" then [] else (jsSplit ',' s).map jsTrim

/-- Effects of a run fragment, whether it completed or restarted. -/
def effectsOf : RunResult (FS × List Effect) → List Effect
  | RunResult.restart effs => effs
  | RunResult.done (_, effs) => effs

/-- Number of HTTP posts in a trace. -/
def countPosts : List Effect → Nat
  | [] => 0
  | Effect.post _ _ :: rest => 1 + countPosts rest
  | _ :: rest => countPosts rest

/-- The log line `sendPushoverNotification` emits for a delivery result. -/
def sendLogLine : Except String Unit → String
  | Except.ok _ => "Pushover notification sent successfully!"
  | Except.error e => "Failed to send Pushover notification: " ++ e

/-- The filename computation as the spec words it: replace every character
that is not a letter or digit with an underscore, lowercase the result, and
append the fixed suffix. -/
def specLatestTitleFileName (channelUrl : String) : String :=
  String.mk
    ((channelUrl.data.map fun c =>
        if c.isAlpha || c.isDigit then c else '_').map Char.toLower)
    ++ "_latest_title.txt"

/-! Helper lemmas shared by the theorems below. -/

/-- UInt32 order transfers to `toNat`. -/
theorem uint32_le_iff_toNat_le (a b : UInt32) : (a ≤ b) ↔ (a.toNat ≤ b.toNat) :=
  Iff.trans UInt32.le_def BitVec.le_def

/-- The regex character class `[a-z0-9]` with the `i` flag accepts exactly
the ASCII letters and digits. -/
theorem isAlnumAscii_eq_letterOrDigit (c : Char) :
    isAlnumAscii c = (c.isAlpha || c.isDigit) := by
  simp only [isAlnumAscii, Char.isAlpha, Char.isUpper, Char.isLower, Char.isDigit]
  rw [Bool.eq_iff_iff]
  simp only [Bool.or_eq_true, Bool.and_eq_true, decide_eq_true_eq, ge_iff_le,
    show ∀ a b : Char, (a ≤ b) ↔ (a.val.toNat ≤ b.val.toNat) from
      fun a b => uint32_le_iff_toNat_le a.val b.val,
    uint32_le_iff_toNat_le,
    show ('a' : Char).val.toNat = 97 from rfl,
    show ('z' : Char).val.toNat = 122 from rfl,
    show ('A' : Char).val.toNat = 65 from rfl,
    show ('Z' : Char).val.toNat = 90 from rfl,
    show ('0' : Char).val.toNat = 48 from rfl,
    show ('9' : Char).val.toNat = 57 from rfl,
    show (65 : UInt32).toNat = 65 from rfl,
    show (90 : UInt32).toNat = 90 from rfl,
    show (97 : UInt32).toNat = 97 from rfl,
    show (122 : UInt32).toNat = 122 from rfl,
    show (48 : UInt32).toNat = 48 from rfl,
    show (57 : UInt32).toNat = 57 from rfl]
  tauto

/-- The send trace is the post followed by the outcome's log line,
whatever delivery does. -/
theorem sendEffects_eq (deliver : PushoverPayload → Except String Unit)
    (apiToken userKey : Option String) (v : Video) (channelUrl : String) :
    sendEffects deliver apiToken userKey v channelUrl =
      [Effect.post pushoverEndpoint (mkPushoverPayload apiToken userKey v channelUrl),
       Effect.log (sendLogLine (deliver (mkPushoverPayload apiToken userKey v channelUrl)))] := by
  unfold sendEffects sendPushoverNotification sendLogLine
  cases h : deliver (mkPushoverPayload apiToken userKey v channelUrl) <;> simp [h]

/-- C1: when a latest video is fetched for a channel, the notification post
and the overwrite of the persisted-title file happen exactly when the
fetched title differs, by exact string equality, from the title
`readLastTitle` yields for the channel's file; when they are equal the file
system is unchanged and no effect is emitted. -/
theorem c1_notify_iff_title_differs
    (deliver : PushoverPayload → Except String Unit)
    (apiToken userKey : Option String) (fs : FS) (channelUrl : String)
    (v : Video) :
    (readLastTitle fs (getLatestTitleFileName channelUrl) = some v.title →
      checkForNewVideo deliver apiToken userKey
          (FetchOutcome.scraped (some v)) fs channelUrl =
        RunResult.done (fs, [])) ∧
    (readLastTitle fs (getLatestTitleFileName channelUrl) ≠ some v.title →
      checkForNewVideo deliver apiToken userKey
          (FetchOutcome.scraped (some v)) fs channelUrl =
        RunResult.done
          (writeLastTitle v.title (getLatestTitleFileName channelUrl) fs,
           Effect.writeFile (getLatestTitleFileName channelUrl) v.title ::
             sendEffects deliver apiToken userKey v channelUrl) ∧
      countPosts (sendEffects deliver apiToken userKey v channelUrl) = 1) := by
  constructor
  · intro h
    simp [checkForNewVideo, getLatestVideo, h]
  · intro h
    refine ⟨by simp [checkForNewVideo, getLatestVideo, h], ?_⟩
    rw [sendEffects_eq]
    simp [countPosts]

/-- Witness for C1 at a concrete channel with no persisted file: the title
differs and the check writes the file and emits the send trace. -/
theorem c1_witness :
    readLastTitle (fun _ => none) (getLatestTitleFileName "url") ≠ some "T" ∧
    checkForNewVideo (fun _ => Except.ok ()) (some "tok") (some "key")
        (FetchOutcome.scraped (some (Video.mk "T" "L"))) (fun _ => none) "url" =
      RunResult.done
        (writeLastTitle "T" (getLatestTitleFileName "url") (fun _ => none),
         Effect.writeFile (getLatestTitleFileName "url") "T" ::
           sendEffects (fun _ => Except.ok ()) (some "tok") (some "key")
             (Video.mk "T" "L") "url") :=
  ⟨by decide,
   ((c1_notify_iff_title_differs (fun _ => Except.ok ()) (some "tok") (some "key")
       (fun _ => none) "url" (Video.mk "T" "L")).2 (by decide)).1⟩

/-- C2: on a detected change the file write is the first effect, the single
notification post comes after it, a delivery error only changes the logged
line (persistence is unaffected by the delivery outcome), and
`sendPushoverNotification` always returns `ok`. -/
theorem c2_persist_before_send
    (deliver : PushoverPayload → Except String Unit)
    (apiToken userKey : Option String) (fs : FS) (channelUrl : String)
    (v : Video)
    (h : readLastTitle fs (getLatestTitleFileName channelUrl) ≠ some v.title) :
    (sendPushoverNotification deliver apiToken userKey v channelUrl).isOk = true ∧
    checkForNewVideo deliver apiToken userKey
        (FetchOutcome.scraped (some v)) fs channelUrl =
      RunResult.done
        (writeLastTitle v.title (getLatestTitleFileName channelUrl) fs,
         [Effect.writeFile (getLatestTitleFileName channelUrl) v.title,
          Effect.post pushoverEndpoint
            (mkPushoverPayload apiToken userKey v channelUrl),
          Effect.log (sendLogLine
            (deliver (mkPushoverPayload apiToken userKey v channelUrl)))]) := by
  constructor
  · unfold sendPushoverNotification
    cases hd : deliver (mkPushoverPayload apiToken userKey v channelUrl) <;>
      simp [hd, Except.isOk, Except.toBool]
  · simp [checkForNewVideo, getLatestVideo, h, sendEffects_eq]

/-- Witness for C2 at a concrete channel whose delivery fails: the title is
still persisted, the post precedes the failure log, and the send call
returns `ok`. -/
theorem c2_witness :
    readLastTitle (fun _ => none) (getLatestTitleFileName "url2") ≠ some "T" ∧
    ((sendPushoverNotification (fun _ => Except.error "boom") (some "tok")
        (some "key") (Video.mk "T" "L") "url2").isOk = true ∧
     checkForNewVideo (fun _ => Except.error "boom") (some "tok") (some "key")
        (FetchOutcome.scraped (some (Video.mk "T" "L"))) (fun _ => none) "url2" =
      RunResult.done
        (writeLastTitle "T" (getLatestTitleFileName "url2") (fun _ => none),
         [Effect.writeFile (getLatestTitleFileName "url2") "T",
          Effect.post pushoverEndpoint
            (mkPushoverPayload (some "tok") (some "key") (Video.mk "T" "L") "url2"),
          Effect.log (sendLogLine
            ((fun _ => Except.error "boom")
              (mkPushoverPayload (some "tok") (some "key") (Video.mk "T" "L") "url2")))])) :=
  ⟨by decide,
   c2_persist_before_send (fun _ => Except.error "boom") (some "tok") (some "key")
     (fun _ => none) "url2" (Video.mk "T" "L") (by decide)⟩

/-- C3: a navigation error or an unexpected fetch error on a channel makes
the whole cycle stop via `restartScript` (log, spawn a new copy of the
process, exit the current one with code 1); the result does not depend on
the remaining channels, which are never visited. -/
theorem c3_fetch_failure_restarts
    (deliver : PushoverPayload → Except String Unit)
    (apiToken userKey : Option String) (outcomes : String → FetchOutcome)
    (channelUrl m : String) (rest : List String) (fs : FS)
    (h : outcomes channelUrl = FetchOutcome.navError m ∨
         outcomes channelUrl = FetchOutcome.unexpectedError m) :
    checkForAllNewVideos deliver apiToken userKey outcomes
        (channelUrl :: rest) fs =
      RunResult.restart
        (fetchErrorLog channelUrl (outcomes channelUrl) ++ restartScript) ∧
    (∀ rest2,
      checkForAllNewVideos deliver apiToken userKey outcomes
          (channelUrl :: rest) fs =
        checkForAllNewVideos deliver apiToken userKey outcomes
          (channelUrl :: rest2) fs) ∧
    restartScript =
      [Effect.log "Restarting script due to error...",
       Effect.spawnSelf, Effect.exitProcess 1] := by
  have hstep : checkForNewVideo deliver apiToken userKey (outcomes channelUrl)
      fs channelUrl =
      RunResult.restart
        (fetchErrorLog channelUrl (outcomes channelUrl) ++ restartScript) := by
    rcases h with h | h <;>
      simp [checkForNewVideo, getLatestVideo, h, fetchErrorLog]
  refine ⟨?_, ?_, rfl⟩
  · simp [checkForAllNewVideos, hstep]
  · intro rest2
    simp [checkForAllNewVideos, hstep]

/-- Witness for C3: one erroring channel followed by another channel; the
cycle restarts with the spawn/exit trace and the second channel is not
reached. -/
theorem c3_witness :
    ((fun _ => FetchOutcome.navError "timeout") "u1" =
        FetchOutcome.navError "timeout" ∨
     (fun _ => FetchOutcome.navError "timeout") "u1" =
        FetchOutcome.unexpectedError "timeout") ∧
    checkForAllNewVideos (fun _ => Except.ok ()) (some "tok") (some "key")
        (fun _ => FetchOutcome.navError "timeout") ["u1", "u2"] (fun _ => none) =
      RunResult.restart
        (fetchErrorLog "u1"
            ((fun _ => FetchOutcome.navError "timeout") "u1") ++ restartScript) :=
  ⟨Or.inl rfl,
   (c3_fetch_failure_restarts (fun _ => Except.ok ()) (some "tok") (some "key")
      (fun _ => FetchOutcome.navError "timeout") "u1" "timeout" ["u2"]
      (fun _ => none) (Or.inl rfl)).1⟩

/-- C4 as stated is false: writing a whitespace-only title and immediately
reading the file back yields `none`, not the written title. -/
theorem c4_counterexample :
    readLastTitle (writeLastTitle " " "f.txt" (fun _ => none)) "f.txt" ≠
      some " " ∧
    readLastTitle (writeLastTitle " " "f.txt" (fun _ => none)) "f.txt" = none := by
  constructor
  · decide
  · decide

/-- C4 (amended): the read-after-write round-trip returns exactly the
written title for every title that is nonempty and has no surrounding
whitespace; the stored value then equals the entire file contents. -/
theorem c4_roundtrip_trimmed_nonempty (title filename : String) (fs : FS)
    (h1 : jsTrim title = title) (h2 : title ≠ "") :
    readLastTitle (writeLastTitle title filename fs) filename = some title := by
  unfold readLastTitle writeLastTitle
  simp [h1, h2]

/-- Witness for the amended C4 at a concrete title and filename. -/
theorem c4_witness :
    jsTrim "Video One" = "Video One" ∧ ("Video One" : String) ≠ "" ∧
    readLastTitle (writeLastTitle "Video One" "f.txt" (fun _ => none)) "f.txt" =
      some "Video One" :=
  ⟨by decide, by decide,
   c4_roundtrip_trimmed_nonempty "Video One" "f.txt" (fun _ => none)
     (by decide) (by decide)⟩

/-- C5: the persisted-state filename is exactly the spec's description:
replace every character that is not a letter or digit with an underscore,
lowercase the result, and append the fixed suffix; it depends on the URL
alone. -/
theorem c5_filename_sanitization (channelUrl : String) :
    getLatestTitleFileName channelUrl = specLatestTitleFileName channelUrl := by
  have hpt : ∀ c : Char,
      (if isAlnumAscii c then c else '_') =
        (if c.isAlpha || c.isDigit then c else '_') := by
    intro c
    rw [isAlnumAscii_eq_letterOrDigit]
  unfold getLatestTitleFileName jsToLowerCase jsReplaceNonAlnum
    specLatestTitleFileName
  simp only [hpt]

/-- C6 as stated is false at the empty-string value of the variable: the
code yields no channels (the empty string is falsy) while splitting on
commas and trimming yields one empty channel name. -/
theorem c6_counterexample :
    channelUrlsFromEnv (some "") ≠ (jsSplit ',' "").map jsTrim ∧
    channelUrlsFromEnv (some "") = [] ∧
    (jsSplit ',' "").map jsTrim = [""] := by
  refine ⟨by decide, by decide, by decide⟩

/-- C6 (amended): an unset variable, and likewise one set to the empty
string, gives the empty channel list, and the cycle over the empty list
visits no channel and changes nothing; every other value is split on commas
with each element trimmed. -/
theorem c6_channel_list :
    channelUrlsFromEnv none = [] ∧
    channelUrlsFromEnv (some "") = [] ∧
    (∀ s : String, s ≠ "" →
      channelUrlsFromEnv (some s) = (jsSplit ',' s).map jsTrim) ∧
    (∀ (deliver : PushoverPayload → Except String Unit)
        (apiToken userKey : Option String)
        (outcomes : String → FetchOutcome) (fs : FS),
      checkForAllNewVideos deliver apiToken userKey outcomes
          (channelUrlsFromEnv none) fs =
        RunResult.done (fs, [])) := by
  refine ⟨rfl, rfl, ?_, ?_⟩
  · intro s hs
    simp [channelUrlsFromEnv, hs]
  · intro deliver apiToken userKey outcomes fs
    rfl

/-- Witness for the amended C6 at a concrete nonempty variable value. -/
theorem c6_witness :
    ("a, b" : String) ≠ "" ∧
    channelUrlsFromEnv (some "a, b") = (jsSplit ',' "a, b").map jsTrim :=
  ⟨by decide, c6_channel_list.2.2.1 "a, b" (by decide)⟩

/-- C7: the notification emitted on a detected change posts to the fixed
endpoint the payload whose message carries the fetched title, whose url
field is the fetched link, and whose remaining fields are the fixed ones;
no other post appears in the check's trace. -/
theorem c7_notification_payload
    (deliver : PushoverPayload → Except String Unit)
    (apiToken userKey : Option String) (fs : FS) (channelUrl : String)
    (v : Video)
    (h : readLastTitle fs (getLatestTitleFileName channelUrl) ≠ some v.title) :
    Effect.post pushoverEndpoint (mkPushoverPayload apiToken userKey v channelUrl) ∈
      effectsOf (checkForNewVideo deliver apiToken userKey
        (FetchOutcome.scraped (some v)) fs channelUrl) ∧
    (∀ endpoint p,
      Effect.post endpoint p ∈
        effectsOf (checkForNewVideo deliver apiToken userKey
          (FetchOutcome.scraped (some v)) fs channelUrl) →
      endpoint = pushoverEndpoint ∧
      p = mkPushoverPayload apiToken userKey v channelUrl) ∧
    (mkPushoverPayload apiToken userKey v channelUrl).message =
      "New video on " ++ channelNameOf channelUrl ++ ": " ++ v.title ∧
    (mkPushoverPayload apiToken userKey v channelUrl).url = v.link ∧
    (mkPushoverPayload apiToken userKey v channelUrl).token = apiToken ∧
    (mkPushoverPayload apiToken userKey v channelUrl).user = userKey ∧
    (mkPushoverPayload apiToken userKey v channelUrl).title =
      "New YouTube Video" ∧
    (mkPushoverPayload apiToken userKey v channelUrl).url_title = "Watch Video" ∧
    (mkPushoverPayload apiToken userKey v channelUrl).priority = 2 ∧
    (mkPushoverPayload apiToken userKey v channelUrl).sound = "siren" ∧
    (mkPushoverPayload apiToken userKey v channelUrl).retry = 30 ∧
    (mkPushoverPayload apiToken userKey v channelUrl).expire = 3600 := by
  have htrace : effectsOf (checkForNewVideo deliver apiToken userKey
      (FetchOutcome.scraped (some v)) fs channelUrl) =
      [Effect.writeFile (getLatestTitleFileName channelUrl) v.title,
       Effect.post pushoverEndpoint (mkPushoverPayload apiToken userKey v channelUrl),
       Effect.log (sendLogLine
         (deliver (mkPushoverPayload apiToken userKey v channelUrl)))] := by
    simp [checkForNewVideo, getLatestVideo, h, sendEffects_eq, effectsOf]
  refine ⟨?_, ?_, rfl, rfl, rfl, rfl, rfl, rfl, rfl, rfl, rfl, rfl⟩
  · rw [htrace]
    simp
  · intro endpoint p hp
    rw [htrace] at hp
    simp only [List.mem_cons, List.not_mem_nil, or_false] at hp
    rcases hp with hp | hp | hp
    · exact absurd hp (by simp)
    · injection hp with h1 h2
      exact ⟨h1, h2⟩
    · exact absurd hp (by simp)

/-- Witness for C7 at a concrete channel URL containing a handle: the post
with the concrete payload is in the trace. -/
theorem c7_witness :
    readLastTitle (fun _ => none)
        (getLatestTitleFileName "https://www.youtube.com/@chan/videos") ≠
      some "T" ∧
    Effect.post pushoverEndpoint
        (mkPushoverPayload (some "tok") (some "key") (Video.mk "T" "L")
          "https://www.youtube.com/@chan/videos") ∈
      effectsOf (checkForNewVideo (fun _ => Except.ok ()) (some "tok") (some "key")
        (FetchOutcome.scraped (some (Video.mk "T" "L"))) (fun _ => none)
        "https://www.youtube.com/@chan/videos") :=
  ⟨by decide,
   (c7_notification_payload (fun _ => Except.ok ()) (some "tok") (some "key")
      (fun _ => none) "https://www.youtube.com/@chan/videos" (Video.mk "T" "L")
      (by decide)).1⟩

/-- C8: frame condition of one poll step: a `null` fetch result, and
likewise a fetched title equal to the stored one, leaves the file system
untouched and emits no effect; the persisted file changes only when the
stored title differs from the fetched one. -/
theorem c8_frame_no_change
    (deliver : PushoverPayload → Except String Unit)
    (apiToken userKey : Option String) (fs : FS) (channelUrl : String) :
    checkForNewVideo deliver apiToken userKey
        (FetchOutcome.scraped none) fs channelUrl =
      RunResult.done (fs, []) ∧
    (∀ v : Video,
      readLastTitle fs (getLatestTitleFileName channelUrl) = some v.title →
      checkForNewVideo deliver apiToken userKey
          (FetchOutcome.scraped (some v)) fs channelUrl =
        RunResult.done (fs, [])) ∧
    (∀ (v : Video) (fs2 : FS) (effs : List Effect),
      checkForNewVideo deliver apiToken userKey
          (FetchOutcome.scraped (some v)) fs channelUrl =
        RunResult.done (fs2, effs) →
      fs2 ≠ fs →
      readLastTitle fs (getLatestTitleFileName channelUrl) ≠ some v.title) := by
  refine ⟨by simp [checkForNewVideo, getLatestVideo], ?_, ?_⟩
  · intro v hv
    simp [checkForNewVideo, getLatestVideo, hv]
  · intro v fs2 effs hrun hne heq
    apply hne
    simp [checkForNewVideo, getLatestVideo, heq] at hrun
    exact hrun.1.symm

/-- Witness for C8: with the fetched title equal to the stored one, the
step returns the unchanged file system and an empty trace. -/
theorem c8_witness :
    readLastTitle (fun _ => some "T") (getLatestTitleFileName "u") =
      some (Video.mk "T" "L").title ∧
    checkForNewVideo (fun _ => Except.ok ()) (some "tok") (some "key")
        (FetchOutcome.scraped (some (Video.mk "T" "L")))
        (fun _ => some "T") "u" =
      RunResult.done ((fun _ => some "T"), []) :=
  ⟨by decide,
   (c8_frame_no_change (fun _ => Except.ok ()) (some "tok") (some "key")
      (fun _ => some "T") "u").2.1 (Video.mk "T" "L") (by decide)⟩

/-- C9: the URL sanitization is not injective: two channel URLs differing
only in letter case share one persisted-state filename. -/
theorem c9_sanitization_not_injective :
    getLatestTitleFileName "https://www.youtube.com/@Chan" =
      getLatestTitleFileName "https://www.youtube.com/@chan" ∧
    ("https://www.youtube.com/@Chan" : String) ≠
      "https://www.youtube.com/@chan" := by
  refine ⟨by decide, by decide⟩

/-- C10: `readLastTitle` yields `none` exactly when the file is absent or
its contents trim to the empty string; hence a fetched title that trims to
the empty string reads back as `none` right after being persisted, still
compares as different, and the step rewrites the file and posts again. -/
theorem c10_empty_title_retriggers
    (deliver : PushoverPayload → Except String Unit)
    (apiToken userKey : Option String) (fs : FS) (f channelUrl : String)
    (v : Video) (h : jsTrim v.title = "") :
    (readLastTitle fs f = none ↔
      fs f = none ∨ ∃ c, fs f = some c ∧ jsTrim c = "") ∧
    readLastTitle
        (writeLastTitle v.title (getLatestTitleFileName channelUrl) fs)
        (getLatestTitleFileName channelUrl) = none ∧
    checkForNewVideo deliver apiToken userKey (FetchOutcome.scraped (some v))
        (writeLastTitle v.title (getLatestTitleFileName channelUrl) fs)
        channelUrl =
      RunResult.done
        (writeLastTitle v.title (getLatestTitleFileName channelUrl)
           (writeLastTitle v.title (getLatestTitleFileName channelUrl) fs),
         Effect.writeFile (getLatestTitleFileName channelUrl) v.title ::
           sendEffects deliver apiToken userKey v channelUrl) := by
  have hread : readLastTitle
      (writeLastTitle v.title (getLatestTitleFileName channelUrl) fs)
      (getLatestTitleFileName channelUrl) = none := by
    simp [readLastTitle, writeLastTitle, h]
  refine ⟨?_, hread, ?_⟩
  · unfold readLastTitle
    cases hc : fs f with
    | none => simp [hc]
    | some c =>
        by_cases ht : jsTrim c = "" <;> simp [hc, ht]
  · simp [checkForNewVideo, getLatestVideo, hread]

/-- Witness for C10 at a whitespace-only title: after persisting it, the
step still rewrites the file and emits the send trace. -/
theorem c10_witness :
    jsTrim (Video.mk " " "L").title = "" ∧
    checkForNewVideo (fun _ => Except.ok ()) (some "tok") (some "key")
        (FetchOutcome.scraped (some (Video.mk " " "L")))
        (writeLastTitle " " (getLatestTitleFileName "u3") (fun _ => none)) "u3" =
      RunResult.done
        (writeLastTitle " " (getLatestTitleFileName "u3")
           (writeLastTitle " " (getLatestTitleFileName "u3") (fun _ => none)),
         Effect.writeFile (getLatestTitleFileName "u3") " " ::
           sendEffects (fun _ => Except.ok ()) (some "tok") (some "key")
             (Video.mk " " "L") "u3") :=
  ⟨by decide,
   (c10_empty_title_retriggers (fun _ => Except.ok ()) (some "tok") (some "key")
      (fun _ => none) "f" "u3" (Video.mk " " "L") (by decide)).2.2⟩

end PushoverNotif
